import Mathlib

/-!
Verification development for the low-stock alert service.

The definitions below are a shallow embedding of the two Python source files
`lowstocklert.py` (the alert pipeline and its helpers) and `productapi.py`
(the product-creation endpoint).  Python numbers are modelled as `Int`
(machine integers in the data base rows) and `Rat` (float arithmetic such as
average daily sales and the threshold multiplier); Python `None` becomes
`Option`; HTTP responses become a status code paired with a response value.
-/

namespace LowStock

/-- Urgency tiers returned by `calculate_urgency` in `lowstocklert.py`. -/
inductive Urgency
  | critical
  | high
  | medium
  | low
deriving DecidableEq, Repr

/-- Executable floor of a rational (the numerator divided by the denominator
with integer euclidean division, which floors because the denominator is
positive).  Agrees with `Int.floor`; see `ratFloor_eq_floor`. -/
def ratFloor (q : ℚ) : ℤ :=
  q.num / (q.den : ℤ)

theorem ratFloor_eq_floor (q : ℚ) : ratFloor q = ⌊q⌋ :=
  (Rat.floor_def).symm

/-- Python `int(x)` on a float/rational: truncation toward zero. -/
def pyInt (q : ℚ) : ℤ :=
  if q < 0 then -(ratFloor (-q)) else ratFloor q

theorem pyInt_of_nonneg {q : ℚ} (h : 0 ≤ q) : pyInt q = ⌊q⌋ := by
  rw [pyInt, if_neg (not_lt.mpr h), ratFloor_eq_floor]

/-- Embedding of `calculate_days_until_stockout(current_stock, avg_daily_sales)`.
The source checks `avg_daily_sales is None or avg_daily_sales <= 0` first
(returning `None`), then `current_stock <= 0` (returning `0`), and otherwise
returns `int(current_stock / avg_daily_sales)`. -/
def calculate_days_until_stockout (current_stock : ℤ) (avg_daily_sales : Option ℚ) : Option ℤ :=
  match avg_daily_sales with
  | none => none
  | some avg =>
    if avg ≤ 0 then none
    else if current_stock ≤ 0 then some 0
    else some (pyInt ((current_stock : ℚ) / avg))

/-- Embedding of `calculate_urgency(days_until_stockout, current_stock)`. -/
def calculate_urgency (days_until_stockout : Option ℤ) (current_stock : ℤ) : Urgency :=
  if current_stock ≤ 0 then .critical
  else
    match days_until_stockout with
    | none => .low
    | some d =>
      if d ≤ 3 then .critical
      else if d ≤ 7 then .high
      else if d ≤ 14 then .medium
      else .low

/-- The dictionary built by `get_preferred_supplier` in `lowstocklert.py`.
`minimum_order_quantity` is `Option` because the column is nullable; a stored
value of `0` is falsy in Python, which `calculate_reorder_quantity` relies on. -/
structure SupplierInfo where
  id : ℤ
  name : String
  contact_email : String
  contact_phone : String
  lead_time_days : Option ℤ
  minimum_order_quantity : Option ℤ
  cost_price : Option ℚ
deriving DecidableEq, Repr

/-- Embedding of `calculate_reorder_quantity(threshold, current_stock, supplier_info)`.
The guard `if supplier_info and supplier_info.get(..)` is Python truthiness:
a present supplier and a minimum-order quantity that is not `None` and not `0`. -/
def calculate_reorder_quantity (threshold current_stock : ℤ)
    (supplier_info : Option SupplierInfo) : ℤ :=
  let target_stock := threshold * 2
  let needed := target_stock - current_stock
  let needed :=
    match supplier_info with
    | none => needed
    | some s =>
      match s.minimum_order_quantity with
      | none => needed
      | some moq => if moq ≠ 0 ∧ needed < moq then moq else needed
  max 10 ((needed + 9).fdiv 10 * 10)

/-- Modelled from the spec wording of §4.4 (for the refinement claim C4):
needed is floored at 0 before the minimum-order-quantity comparison, a known
minimum greater than needed raises needed, and the result is needed rounded up
to the next multiple of 10 with a hard floor of 10. -/
def reorder_quantity_spec (threshold current_stock : ℤ)
    (supplier_info : Option SupplierInfo) : ℤ :=
  let needed := max 0 (2 * threshold - current_stock)
  let needed :=
    match supplier_info with
    | none => needed
    | some s =>
      match s.minimum_order_quantity with
      | none => needed
      | some moq => if needed < moq then moq else needed
  max 10 ((needed + 9).fdiv 10 * 10)

example : calculate_days_until_stockout 0 none = none := by decide
example : calculate_days_until_stockout 10 (some 3) = some 3 := by
  norm_num [calculate_days_until_stockout, pyInt, ratFloor]
example : calculate_days_until_stockout (-2) (some 3) = some 0 := by
  norm_num [calculate_days_until_stockout]
example : calculate_urgency (some 7) 5 = .high := by decide
example : calculate_reorder_quantity 20 5 none = 40 := by decide
example : reorder_quantity_spec 20 5 none = 40 := by decide
example : calculate_reorder_quantity 1 100 none = 10 := by decide

/-- Python `round(x, 2)` rounds half to even (banker's rounding). -/
def roundHalfEven (x : ℚ) : ℤ :=
  let f := ratFloor x
  let r := x - (f : ℚ)
  if r < 1/2 then f
  else if (1/2 : ℚ) < r then f + 1
  else if f % 2 = 0 then f else f + 1

/-- Python `round(x, 2)`. -/
def round2 (x : ℚ) : ℚ :=
  (roundHalfEven (x * 100) : ℚ) / 100

/-- One row of the main query in step 5 of `get_low_stock_alerts`: the join of
`Inventory`, `Product` and `Warehouse`, carrying both the selected columns and
the columns the query filters on. -/
structure Item where
  product_id : ℤ
  product_name : String
  sku : String
  low_stock_threshold : ℤ
  category : String
  warehouse_id : ℤ
  warehouse_name : String
  current_stock : ℤ
  last_counted_at : Option String
  organization_id : ℤ
  is_deleted : Bool
  warehouse_is_active : Bool
deriving DecidableEq, Repr

/-- The alert dictionary built in step 9 of `get_low_stock_alerts`. -/
structure Alert where
  product_id : ℤ
  product_name : String
  sku : String
  category : String
  warehouse_id : ℤ
  warehouse_name : String
  current_stock : ℤ
  threshold : ℤ
  days_until_stockout : Option ℤ
  avg_daily_sales : Option ℚ
  last_counted_at : Option String
  supplier : Option SupplierInfo
  urgency : Urgency
  recommended_reorder_quantity : ℤ
deriving DecidableEq, Repr

/-- The `parameters` sub-dictionary of the response envelope. -/
structure Params where
  organization_id : ℤ
  warehouse_id : Option ℤ
  threshold_multiplier : ℚ
  include_no_sales : Bool
  sales_period_days : ℤ
deriving DecidableEq, Repr

/-- The response envelope built in step 11 of `get_low_stock_alerts` (the unit
that is cached in Redis). -/
structure Envelope where
  alerts : List Alert
  total_alerts : ℕ
  generated_at : String
  parameters : Params
deriving DecidableEq, Repr

/-- A JSON response body: either the alert envelope or an error object. -/
inductive Resp
  | envelope (e : Envelope)
  | error (msg : String)
deriving DecidableEq, Repr

/-- The sort key of step 10: `(days_until_stockout if not None else 999, current_stock)`. -/
def alertKey (a : Alert) : ℤ × ℤ :=
  (a.days_until_stockout.getD 999, a.current_stock)

/-- Lexicographic comparison of sort keys, as Python compares int pairs. -/
def alertLe (a b : Alert) : Prop :=
  (alertKey a).1 < (alertKey b).1 ∨
    ((alertKey a).1 = (alertKey b).1 ∧ (alertKey a).2 ≤ (alertKey b).2)

instance alertLeDec : DecidableRel alertLe := fun a b =>
  decidable_of_iff
    ((alertKey a).1 < (alertKey b).1 ∨
      ((alertKey a).1 = (alertKey b).1 ∧ (alertKey a).2 ≤ (alertKey b).2))
    Iff.rfl

instance alertLeTotal : IsTotal Alert alertLe :=
  ⟨by intro a b; unfold alertLe; omega⟩

instance alertLeTrans : IsTrans Alert alertLe :=
  ⟨by intro a b c; unfold alertLe; omega⟩

/-- Embedding of `alerts.sort(key=...)`: Python's sort is stable, and insertion sort on the
non-strict key order is exactly the stable sort by that key. -/
def sortAlerts (l : List Alert) : List Alert :=
  List.insertionSort alertLe l

/-- Python `xs[:limit]` for a possibly negative `limit`. -/
def pySlice (limit : ℤ) (l : List Alert) : List Alert :=
  if 0 ≤ limit then l.take limit.toNat
  else l.take ((l.length : ℤ) + limit).toNat

/-- Embedding of `sales_data.get((product_id, warehouse_id), 0)` over the dictionary built
by `get_recent_sales_data`. -/
def salesGet : List ((ℤ × ℤ) × ℚ) → ℤ × ℤ → ℚ
  | [], _ => 0
  | (k, v) :: rest, key => if k = key then v else salesGet rest key

/-- Embedding of `Organization.query.get(company_id)`, keeping only `is_active`. -/
def lookupOrg : List (ℤ × Bool) → ℤ → Option Bool
  | [], _ => none
  | (i, a) :: rest, cid => if i = cid then some a else lookupOrg rest cid

/-- Embedding of `redis_client.get(key)` against an explicit store of live (within-TTL)
entries, already decoded from JSON. -/
def storeLookup : List (String × Envelope) → String → Option Envelope
  | [], _ => none
  | (k, e) :: rest, key => if k = key then some e else storeLookup rest key

def boolStr (b : Bool) : String :=
  if b then "True" else "False"

def optIntStr : Option ℤ → String
  | none => "None"
  | some w => toString w

/-- The f-string cache key of step 3:
`f"low_stock_alerts:{company_id}:{warehouse_id}:{threshold_multiplier}:{include_no_sales}"`.
Note that `limit` is not part of the key. -/
def cacheKey (company_id : ℤ) (warehouse_id : Option ℤ) (tm : ℚ) (inc : Bool) : String :=
  "low_stock_alerts:" ++ toString company_id ++ ":" ++ optIntStr warehouse_id ++ ":"
    ++ toString tm ++ ":" ++ boolStr inc

/-- The external collaborators of `get_low_stock_alerts`: the authenticated
user (as its organization-access predicate), the `organizations` table, the
joined inventory rows, the sales dictionary of `get_recent_sales_data`, the
supplier resolution of `get_preferred_supplier`, the wall clock, and whether
the Redis calls raise.  A raising Redis call is modelled by the flags because
the source has no try/except around the cache calls other than the outermost
generic handler. -/
structure Env where
  current_user : Option (ℤ → Bool)
  organizations : List (ℤ × Bool)
  items : List Item
  sales_data : List ((ℤ × ℤ) × ℚ)
  suppliers : ℤ → Option SupplierInfo
  now : String
  cache_get_fails : Bool
  cache_set_fails : Bool

/-- The generic message of the outermost `except Exception` handler. -/
def internalErrMsg : String := "An error occurred while generating alerts"

/-- Steps 5-6 of the endpoint: the filtered join plus the optional
`warehouse_id` filter (`if warehouse_id:` is Python truthiness, so a filter of
`None` or `0` is skipped). -/
def lowStockItems (items : List Item) (company_id : ℤ) (tm : ℚ)
    (warehouse_id : Option ℤ) : List Item :=
  let base := items.filter (fun i =>
    decide (i.organization_id = company_id ∧ i.is_deleted = false ∧
      i.warehouse_is_active = true ∧
      (i.current_stock : ℚ) < (i.low_stock_threshold : ℚ) * tm))
  match warehouse_id with
  | some w => if w ≠ 0 then base.filter (fun i => decide (i.warehouse_id = w)) else base
  | none => base

/-- Steps 6-9: the loop body over the low-stock rows.  A row with no recent
sales is skipped unless `include_no_sales`; otherwise the alert dictionary is
assembled exactly as in the source. -/
def buildAlerts (env : Env) (inc : Bool) (rows : List Item) : List Alert :=
  rows.filterMap (fun i =>
    let avg := salesGet env.sales_data (i.product_id, i.warehouse_id)
    if inc = false ∧ avg = 0 then none
    else
      let days := calculate_days_until_stockout i.current_stock (some avg)
      let supplier_info := env.suppliers i.product_id
      some {
        product_id := i.product_id
        product_name := i.product_name
        sku := i.sku
        category := i.category
        warehouse_id := i.warehouse_id
        warehouse_name := i.warehouse_name
        current_stock := i.current_stock
        threshold := i.low_stock_threshold
        days_until_stockout := days
        avg_daily_sales := if 0 < avg then some (round2 avg) else none
        last_counted_at := i.last_counted_at
        supplier := supplier_info
        urgency := calculate_urgency days i.current_stock
        recommended_reorder_quantity :=
          calculate_reorder_quantity i.low_stock_threshold i.current_stock supplier_info })

/-- Steps 4-11 of the endpoint: the computation performed on a cache miss.
The loop of step 6 rebinds the local variable `warehouse_id` to
`item.warehouse_id` for every row of `low_stock_items`, so the `parameters`
echo of the envelope holds the last such row's warehouse (or the request
parameter when the loop body never ran). -/
def buildResponse (env : Env) (company_id : ℤ) (warehouse_id : Option ℤ)
    (tm : ℚ) (inc : Bool) (limit : ℤ) : Envelope :=
  let rows := lowStockItems env.items company_id tm warehouse_id
  let alerts := pySlice limit (sortAlerts (buildAlerts env inc rows))
  { alerts := alerts
    total_alerts := alerts.length
    generated_at := env.now
    parameters := {
      organization_id := company_id
      warehouse_id := match rows.getLast? with
        | some i => some i.warehouse_id
        | none => warehouse_id
      threshold_multiplier := tm
      include_no_sales := inc
      sales_period_days := 30 } }

/-- Embedding of the endpoint `get_low_stock_alerts`.  Returns the HTTP status,
the JSON body, and the cache store after the request.  Exceptions raised by
the Redis client (modelled by the two failure flags) propagate to the
outermost `except Exception` handler, which returns the generic 500 error. -/
def get_low_stock_alerts (env : Env) (store : List (String × Envelope))
    (company_id : ℤ) (warehouse_id : Option ℤ) (threshold_multiplier : ℚ)
    (include_no_sales : Bool) (limit : ℤ) :
    ℕ × Resp × List (String × Envelope) :=
  match env.current_user with
  | none => (401, .error "Unauthorized", store)
  | some has_access_to_organization =>
    if has_access_to_organization company_id = false then
      (403, .error "Access denied", store)
    else if threshold_multiplier ≤ 0 then
      (400, .error "threshold_multiplier must be positive", store)
    else if 1000 < limit then
      (400, .error "limit cannot exceed 1000", store)
    else
      match lookupOrg env.organizations company_id with
      | none => (404, .error "Organization not found", store)
      | some false => (404, .error "Organization not found", store)
      | some true =>
        let key := cacheKey company_id warehouse_id threshold_multiplier include_no_sales
        if env.cache_get_fails then (500, .error internalErrMsg, store)
        else
          match storeLookup store key with
          | some cached => (200, .envelope cached, store)
          | none =>
            let response :=
              buildResponse env company_id warehouse_id threshold_multiplier
                include_no_sales limit
            if env.cache_set_fails then (500, .error internalErrMsg, store)
            else (200, .envelope response, (key, response) :: store)

/-- HTTP status of a handler result. -/
def respStatus (r : ℕ × Resp × List (String × Envelope)) : ℕ :=
  r.1

/-- The envelope of a handler result, when the body is not an error object. -/
def respEnv (r : ℕ × Resp × List (String × Envelope)) : Option Envelope :=
  match r.2.1 with
  | .envelope e => some e
  | .error _ => none

/-- The alerts list of a handler result (empty for error bodies). -/
def respAlerts (r : ℕ × Resp × List (String × Envelope)) : List Alert :=
  match r.2.1 with
  | .envelope e => e.alerts
  | .error _ => []

/-- Whether the body of a handler result is an error object. -/
def respIsError (r : ℕ × Resp × List (String × Envelope)) : Bool :=
  match r.2.1 with
  | .envelope _ => false
  | .error _ => true

/-- The cache store after a request. -/
def respStore (r : ℕ × Resp × List (String × Envelope)) : List (String × Envelope) :=
  r.2.2

theorem fdiv_ten (n : ℤ) : n.fdiv 10 = n / 10 :=
  Int.fdiv_eq_ediv n (by norm_num)

/-- C1 counterexample: `calculate_days_until_stockout(0, None)` returns `None`,
not `0`, because the source tests the velocity before the stock level. -/
theorem c1_counterexample :
    calculate_days_until_stockout 0 none = none ∧
      calculate_days_until_stockout 0 none ≠ some 0 := by
  constructor
  · rfl
  · decide

/-- C1 (amended): for current_stock ≤ 0, `calculate_days_until_stockout`
returns `0` only when avg_daily_sales is present and positive; when
avg_daily_sales is absent or non-positive it returns `None`, so a row with
current_stock = 0 and no sales data gets days_until_stockout = None. -/
theorem c1_amended_days_zero (s : ℤ) (h : s ≤ 0) :
    (∀ a : ℚ, 0 < a → calculate_days_until_stockout s (some a) = some 0) ∧
      (∀ a : ℚ, a ≤ 0 → calculate_days_until_stockout s (some a) = none) ∧
      calculate_days_until_stockout s none = none := by
  refine ⟨?_, ?_, rfl⟩
  · intro a ha
    rw [calculate_days_until_stockout, if_neg (not_le.mpr ha), if_pos h]
  · intro a ha
    rw [calculate_days_until_stockout, if_pos ha]

/-- C1 witness. -/
theorem c1_witness :
    calculate_days_until_stockout (-5) (some 2) = some 0 ∧
      calculate_days_until_stockout 0 (some 0) = none ∧
      calculate_days_until_stockout 0 none = none :=
  ⟨(c1_amended_days_zero (-5) (by norm_num)).1 2 (by norm_num),
    (c1_amended_days_zero 0 le_rfl).2.1 0 le_rfl,
    (c1_amended_days_zero 0 le_rfl).2.2⟩

/-- C4: `calculate_reorder_quantity` computes exactly the spec's procedure
(needed = max(0, 2·threshold − current_stock), raised to a known supplier
minimum order quantity when that is larger, then rounded up to the next
multiple of 10 with a floor of 10), and the result is always a positive
multiple of 10 that is at least 10. -/
theorem c4_reorder_quantity (threshold current_stock : ℤ)
    (supplier_info : Option SupplierInfo) :
    calculate_reorder_quantity threshold current_stock supplier_info =
        reorder_quantity_spec threshold current_stock supplier_info ∧
      10 ∣ calculate_reorder_quantity threshold current_stock supplier_info ∧
      10 ≤ calculate_reorder_quantity threshold current_stock supplier_info := by
  rw [calculate_reorder_quantity.eq_def, reorder_quantity_spec.eq_def]
  rcases supplier_info with _ | s
  · simp only [fdiv_ten]
    omega
  · rcases hm : s.minimum_order_quantity with _ | m
    · simp only [hm, fdiv_ten]
      omega
    · simp only [hm, ne_eq, fdiv_ten]
      split_ifs <;> omega

/-- C5: `calculate_urgency` is total into the four tiers by its type; stock at
or below zero is critical unconditionally, absent days give low, and the day
bands 0-3 / 4-7 / 8-14 / 15+ give critical / high / medium / low with
boundaries resolving to the more urgent tier. -/
theorem c5_urgency (days : Option ℤ) (current_stock : ℤ) :
    (current_stock ≤ 0 → calculate_urgency days current_stock = .critical) ∧
      (0 < current_stock → days = none → calculate_urgency days current_stock = .low) ∧
      (0 < current_stock → ∀ d, days = some d →
        ((d ≤ 3 → calculate_urgency days current_stock = .critical) ∧
          (4 ≤ d → d ≤ 7 → calculate_urgency days current_stock = .high) ∧
          (8 ≤ d → d ≤ 14 → calculate_urgency days current_stock = .medium) ∧
          (14 < d → calculate_urgency days current_stock = .low))) := by
  refine ⟨fun h => ?_, fun h hd => ?_, fun h d hd => ?_⟩
  · rw [calculate_urgency.eq_def, if_pos h]
  · rw [calculate_urgency.eq_def, if_neg (not_le.mpr h), hd]
  · subst hd
    rw [calculate_urgency.eq_def, if_neg (not_le.mpr h)]
    simp only []
    refine ⟨fun h3 => ?_, fun h4 h7 => ?_, fun h8 h14 => ?_, fun h15 => ?_⟩
    · rw [if_pos h3]
    · rw [if_neg (by omega), if_pos h7]
    · rw [if_neg (by omega), if_neg (by omega), if_pos h14]
    · rw [if_neg (by omega), if_neg (by omega), if_neg (by omega)]

/-- C5 witness. -/
theorem c5_witness :
    calculate_urgency (some 100) (-1) = .critical ∧
      calculate_urgency none 4 = .low ∧
      calculate_urgency (some 3) 9 = .critical ∧
      calculate_urgency (some 7) 9 = .high ∧
      calculate_urgency (some 14) 9 = .medium ∧
      calculate_urgency (some 15) 9 = .low :=
  ⟨(c5_urgency (some 100) (-1)).1 (by norm_num),
    (c5_urgency none 4).2.1 (by norm_num) rfl,
    ((c5_urgency (some 3) 9).2.2 (by norm_num) 3 rfl).1 (by norm_num),
    ((c5_urgency (some 7) 9).2.2 (by norm_num) 7 rfl).2.1 (by norm_num) (by norm_num),
    ((c5_urgency (some 14) 9).2.2 (by norm_num) 14 rfl).2.2.1 (by norm_num) (by norm_num),
    ((c5_urgency (some 15) 9).2.2 (by norm_num) 15 rfl).2.2.2 (by norm_num)⟩

/-- C6: with positive stock, absent or non-positive velocity yields `None`, and
positive velocity yields the floor of current_stock / avg_daily_sales, which
is non-negative. -/
theorem c6_days_floor (s : ℤ) (a : ℚ) :
    (0 < s → calculate_days_until_stockout s none = none) ∧
      (0 < s → a ≤ 0 → calculate_days_until_stockout s (some a) = none) ∧
      (0 < s → 0 < a →
        calculate_days_until_stockout s (some a) = some ⌊(s : ℚ) / a⌋ ∧
          0 ≤ ⌊(s : ℚ) / a⌋) := by
  refine ⟨fun _ => rfl, fun _ ha => ?_, fun hs ha => ⟨?_, ?_⟩⟩
  · rw [calculate_days_until_stockout, if_pos ha]
  · rw [calculate_days_until_stockout, if_neg (not_le.mpr ha),
      if_neg (not_le.mpr hs),
      pyInt_of_nonneg (div_nonneg (by exact_mod_cast hs.le) ha.le)]
  · exact Int.floor_nonneg.mpr (div_nonneg (by exact_mod_cast hs.le) ha.le)

/-- The comparison the spec claims for the output order: lexicographic on
(days-to-stockout with `None` as positive infinity, current_stock). -/
def leInfKey (a b : Alert) : Bool :=
  match a.days_until_stockout, b.days_until_stockout with
  | none, none => decide (a.current_stock ≤ b.current_stock)
  | none, some _ => false
  | some _, none => true
  | some da, some db =>
    decide (da < db ∨ (da = db ∧ a.current_stock ≤ b.current_stock))

/-- Sortedness of an alert list under the spec's infinity-extended key. -/
def sortedInf : List Alert → Bool
  | [] => true
  | [_] => true
  | a :: b :: l => leInfKey a b && sortedInf (b :: l)

/-- Whether the body, if it is an envelope, is sorted by the code's actual
sort key (days with the `999` default, then current_stock). -/
def respSorted (r : ℕ × Resp × List (String × Envelope)) : Prop :=
  match r.2.1 with
  | .envelope e => List.Sorted alertLe e.alerts
  | .error _ => True

theorem sorted_sortAlerts (l : List Alert) : List.Sorted alertLe (sortAlerts l) :=
  List.sorted_insertionSort alertLe l

theorem sorted_pySlice (limit : ℤ) {l : List Alert}
    (h : List.Sorted alertLe l) : List.Sorted alertLe (pySlice limit l) := by
  unfold pySlice
  split_ifs <;> exact List.Pairwise.sublist (List.take_sublist _ _) h

/-- C6 witness. -/
theorem c6_witness :
    calculate_days_until_stockout 10 none = none ∧
      calculate_days_until_stockout 10 (some 0) = none ∧
      calculate_days_until_stockout 10 (some 3) = some ⌊((10 : ℤ) : ℚ) / 3⌋ ∧
      0 ≤ ⌊((10 : ℤ) : ℚ) / 3⌋ :=
  ⟨(c6_days_floor 10 0).1 (by norm_num),
    (c6_days_floor 10 0).2.1 (by norm_num) le_rfl,
    ((c6_days_floor 10 3).2.2 (by norm_num) (by norm_num)).1,
    ((c6_days_floor 10 3).2.2 (by norm_num) (by norm_num)).2⟩

/-- A concrete low-stock row used by the witnesses: organization 1,
warehouse 3, stock 5 under a threshold of 20. -/
def testItem : Item :=
  { product_id := 1, product_name := "Widget", sku := "WID-1",
    low_stock_threshold := 20, category := "general", warehouse_id := 3,
    warehouse_name := "Main", current_stock := 5, last_counted_at := none,
    organization_id := 1, is_deleted := false, warehouse_is_active := true }

/-- A healthy environment: an authenticated user with access everywhere,
active organization 1, one qualifying row with one unit sold per day, and a
working cache. -/
def testEnv : Env :=
  { current_user := some (fun _ => true), organizations := [(1, true)],
    items := [testItem], sales_data := [((1, 3), 1)],
    suppliers := fun _ => none, now := "2025-01-01T00:00:00",
    cache_get_fails := false, cache_set_fails := false }

/-- C2 (amended): every envelope the endpoint returns is sorted by the key the
code actually uses, `(days_until_stockout if not None else 999, current_stock)`,
provided every cached envelope in the store is (which every envelope the
endpoint itself produced is).  The spec's infinity reading only coincides with
this for days values below 999. -/
theorem c2_amended_sorted (env : Env) (store : List (String × Envelope))
    (company_id : ℤ) (warehouse_id : Option ℤ) (tm : ℚ) (inc : Bool) (limit : ℤ)
    (hstore : ∀ k e, storeLookup store k = some e → List.Sorted alertLe e.alerts) :
    respSorted (get_low_stock_alerts env store company_id warehouse_id tm inc limit) := by
  rw [get_low_stock_alerts.eq_def]
  rcases env.current_user with _ | user
  · trivial
  · simp only []
    split_ifs
    · trivial
    · trivial
    · trivial
    · rcases lookupOrg env.organizations company_id with _ | b
      · trivial
      · rcases b
        · trivial
        · trivial
    · rcases lookupOrg env.organizations company_id with _ | b
      · trivial
      · rcases b
        · trivial
        · rcases hcache : storeLookup store
              (cacheKey company_id warehouse_id tm inc) with _ | cached
          · trivial
          · exact hstore _ _ hcache
    · rcases lookupOrg env.organizations company_id with _ | b
      · trivial
      · rcases b
        · trivial
        · rcases hcache : storeLookup store
              (cacheKey company_id warehouse_id tm inc) with _ | cached
          · exact sorted_pySlice _ (sorted_sortAlerts _)
          · exact hstore _ _ hcache

/-- C2 amended witness. -/
theorem c2_witness :
    respSorted (get_low_stock_alerts testEnv [] 1 none 1 false 100) :=
  c2_amended_sorted testEnv [] 1 none 1 false 100 (fun _ _ h => nomatch h)

/-- A slow-moving, high-stock row: 1000 units on hand, one sold per day, so
days_until_stockout is 1000, past the 999 sort default. -/
def itemSlow : Item :=
  { product_id := 1, product_name := "Anvil", sku := "ANV-1",
    low_stock_threshold := 2000, category := "general", warehouse_id := 3,
    warehouse_name := "Main", current_stock := 1000, last_counted_at := none,
    organization_id := 1, is_deleted := false, warehouse_is_active := true }

/-- A row with no recent sales at all, so days_until_stockout is absent. -/
def itemNoSales : Item :=
  { product_id := 2, product_name := "Bolt", sku := "BLT-1",
    low_stock_threshold := 10, category := "general", warehouse_id := 3,
    warehouse_name := "Main", current_stock := 5, last_counted_at := none,
    organization_id := 1, is_deleted := false, warehouse_is_active := true }

/-- Environment for the sort counterexample: one row whose predicted stockout
is 1000 days away and one row with no sales data. -/
def envSort : Env :=
  { current_user := some (fun _ => true), organizations := [(1, true)],
    items := [itemSlow, itemNoSales], sales_data := [((1, 3), 1)],
    suppliers := fun _ => none, now := "2025-01-01T00:00:00",
    cache_get_fails := false, cache_set_fails := false }

/-- C2 counterexample: with `include_no_sales=true`, the row with absent days
(default key 999) sorts before the row with days = 1000, although under the
claimed infinity reading the 1000-day row's key is strictly smaller, so the
returned list is not sorted by the claimed key. -/
theorem c2_counterexample :
    respStatus (get_low_stock_alerts envSort [] 1 none 1 true 100) = 200 ∧
      sortedInf (respAlerts (get_low_stock_alerts envSort [] 1 none 1 true 100)) = false := by
  norm_num [get_low_stock_alerts, buildResponse, buildAlerts, lowStockItems,
    lookupOrg, storeLookup, cacheKey, salesGet, respStatus, respAlerts,
    sortAlerts, pySlice, calculate_days_until_stockout, calculate_urgency,
    calculate_reorder_quantity, pyInt, ratFloor, round2, roundHalfEven,
    List.filter, List.filterMap, List.insertionSort, List.orderedInsert,
    internalErrMsg, envSort, itemSlow, itemNoSales, sortedInf, leInfKey,
    alertLe, alertKey]

/-- The healthy environment with a cache whose reads raise. -/
def envCacheReadErr : Env :=
  { testEnv with cache_get_fails := true }

/-- The healthy environment with a cache whose writes raise. -/
def envCacheWriteErr : Env :=
  { testEnv with cache_set_fails := true }

/-- C3 counterexample: with valid parameters and a cache whose read raises,
the request returns the generic 500 error body instead of the computed
envelope with status 200. -/
theorem c3_counterexample :
    respStatus (get_low_stock_alerts envCacheReadErr [] 1 none 1 false 100) = 500 ∧
      respIsError (get_low_stock_alerts envCacheReadErr [] 1 none 1 false 100) = true := by
  norm_num [get_low_stock_alerts, lookupOrg, respStatus, respIsError,
    envCacheReadErr, testEnv, internalErrMsg]

/-- C3 (amended): a cache error is not caught separately; it propagates to the
outermost generic exception handler, so an otherwise valid request fails with
the generic 500 error body — on a read error before any computation, and on a
write error after the envelope was computed — instead of falling through to
direct computation. -/
theorem c3_amended_cache_error_500 (env : Env) (store : List (String × Envelope))
    (company_id : ℤ) (warehouse_id : Option ℤ) (tm : ℚ) (inc : Bool) (limit : ℤ)
    (user : ℤ → Bool) (hcu : env.current_user = some user)
    (hacc : user company_id = true) (htm : 0 < tm) (hlim : limit ≤ 1000)
    (horg : lookupOrg env.organizations company_id = some true) :
    (env.cache_get_fails = true →
      get_low_stock_alerts env store company_id warehouse_id tm inc limit =
        (500, .error internalErrMsg, store)) ∧
      (env.cache_get_fails = false →
        storeLookup store (cacheKey company_id warehouse_id tm inc) = none →
        env.cache_set_fails = true →
        get_low_stock_alerts env store company_id warehouse_id tm inc limit =
          (500, .error internalErrMsg, store)) := by
  constructor
  · intro hget
    rw [get_low_stock_alerts.eq_def, hcu]
    simp only [hacc, horg, hget, Bool.true_eq_false, if_false, if_true,
      not_le.mpr htm, not_lt.mpr hlim, if_neg, ite_false, ite_true]
  · intro hget hmiss hset
    rw [get_low_stock_alerts.eq_def, hcu]
    simp only [hacc, horg, hget, hmiss, hset, Bool.true_eq_false,
      Bool.false_eq_true, if_false, if_true, not_le.mpr htm, not_lt.mpr hlim,
      if_neg, ite_false, ite_true]

/-- C3 witness. -/
theorem c3_witness :
    get_low_stock_alerts envCacheReadErr [] 1 none 1 false 100 =
        (500, .error internalErrMsg, []) ∧
      get_low_stock_alerts envCacheWriteErr [] 1 none 1 false 100 =
        (500, .error internalErrMsg, []) :=
  ⟨(c3_amended_cache_error_500 envCacheReadErr [] 1 none 1 false 100
      (fun _ => true) rfl rfl (by norm_num) (by norm_num) rfl).1 rfl,
    (c3_amended_cache_error_500 envCacheWriteErr [] 1 none 1 false 100
      (fun _ => true) rfl rfl (by norm_num) (by norm_num) rfl).2 rfl rfl rfl⟩

/-- C7: after authentication, a non-positive threshold_multiplier (such as 0
or -1) is rejected with the 400 validation error; any limit above 1000 (such
as 1001) is rejected with a 400 validation error rather than clamped; and with
a positive multiplier and limit at most 1000 (such as exactly 1000) the
request never yields status 400. -/
theorem c7_validation (env : Env) (store : List (String × Envelope))
    (company_id : ℤ) (warehouse_id : Option ℤ) (tm : ℚ) (inc : Bool) (limit : ℤ)
    (user : ℤ → Bool) (hcu : env.current_user = some user)
    (hacc : user company_id = true) :
    (tm ≤ 0 →
      get_low_stock_alerts env store company_id warehouse_id tm inc limit =
        (400, .error "threshold_multiplier must be positive", store)) ∧
      (1000 < limit →
        respStatus (get_low_stock_alerts env store company_id warehouse_id tm inc limit) = 400 ∧
          respIsError (get_low_stock_alerts env store company_id warehouse_id tm inc limit) = true) ∧
      (0 < tm → limit ≤ 1000 →
        respStatus (get_low_stock_alerts env store company_id warehouse_id tm inc limit) ≠ 400) := by
  refine ⟨fun htm => ?_, fun hlim => ?_, fun htm hlim => ?_⟩
  · rw [get_low_stock_alerts.eq_def, hcu]
    simp only [hacc, Bool.true_eq_false, if_false, htm, ite_true, if_true]
  · by_cases htm : tm ≤ 0
    · rw [get_low_stock_alerts.eq_def, hcu]
      simp only [hacc, Bool.true_eq_false, if_false, htm, ite_true, if_true]
      exact ⟨rfl, rfl⟩
    · rw [get_low_stock_alerts.eq_def, hcu]
      simp only [hacc, Bool.true_eq_false, if_false, htm, ite_false, hlim,
        ite_true, if_true]
      exact ⟨rfl, rfl⟩
  · rw [get_low_stock_alerts.eq_def, hcu]
    simp only [hacc, Bool.true_eq_false, if_false, not_le.mpr htm,
      not_lt.mpr hlim, ite_false]
    rcases lookupOrg env.organizations company_id with _ | b
    · simp [respStatus]
    · rcases b
      · simp [respStatus]
      · simp only []
        split_ifs
        · simp [respStatus]
        · rcases storeLookup store (cacheKey company_id warehouse_id tm inc) with _ | cached
          · simp [respStatus]
          · simp [respStatus]
        · rcases storeLookup store (cacheKey company_id warehouse_id tm inc) with _ | cached
          · simp [respStatus]
          · simp [respStatus]

/-- C7 witness. -/
theorem c7_witness :
    get_low_stock_alerts testEnv [] 1 none 0 false 100 =
        (400, .error "threshold_multiplier must be positive", []) ∧
      get_low_stock_alerts testEnv [] 1 none (-1) false 100 =
        (400, .error "threshold_multiplier must be positive", []) ∧
      respStatus (get_low_stock_alerts testEnv [] 1 none 1 false 1001) = 400 ∧
      respStatus (get_low_stock_alerts testEnv [] 1 none 1 false 1000) ≠ 400 :=
  ⟨(c7_validation testEnv [] 1 none 0 false 100 (fun _ => true) rfl rfl).1 le_rfl,
    (c7_validation testEnv [] 1 none (-1) false 100 (fun _ => true) rfl rfl).1 (by norm_num),
    ((c7_validation testEnv [] 1 none 1 false 1001 (fun _ => true) rfl rfl).2.1 (by norm_num)).1,
    (c7_validation testEnv [] 1 none 1 false 1000 (fun _ => true) rfl rfl).2.2 (by norm_num) le_rfl⟩

theorem pySlice_nil (limit : ℤ) : pySlice limit [] = [] := by
  unfold pySlice
  split_ifs <;> simp

/-- If no inventory row is in the requested warehouse, the warehouse filter of
step 5 leaves nothing. -/
theorem lowStockItems_nil_of_no_warehouse (items : List Item) (company_id : ℤ)
    (tm : ℚ) (w : ℤ) (hw : w ≠ 0) (hnone : ∀ i ∈ items, i.warehouse_id ≠ w) :
    lowStockItems items company_id tm (some w) = [] := by
  rw [lowStockItems.eq_def]
  simp only [if_pos hw]
  rw [List.filter_eq_nil_iff]
  intro i hi
  simp only [decide_eq_true_eq]
  exact hnone i (List.mem_filter.mp hi).1

/-- C8 counterexample: filtering by warehouse 7, which no row references (and
which does not exist in the environment), returns a normal empty 200 envelope,
not a 404 NotFoundError. -/
theorem c8_counterexample :
    respStatus (get_low_stock_alerts testEnv [] 1 (some 7) 1 false 100) = 200 ∧
      respAlerts (get_low_stock_alerts testEnv [] 1 (some 7) 1 false 100) = [] ∧
      respIsError (get_low_stock_alerts testEnv [] 1 (some 7) 1 false 100) = false := by
  norm_num [get_low_stock_alerts, buildResponse, buildAlerts, lowStockItems,
    lookupOrg, storeLookup, cacheKey, salesGet, respStatus, respAlerts,
    respIsError, sortAlerts, pySlice, List.filter, List.filterMap,
    List.insertionSort, internalErrMsg, testEnv, testItem]

/-- C8 (amended): the endpoint never checks that the warehouse filter refers
to an existing warehouse; a filter matching no row yields a normal 200
envelope with an empty alerts list.  Only a missing or inactive organization
produces the 404. -/
theorem c8_amended_no_warehouse_check (env : Env) (store : List (String × Envelope))
    (company_id : ℤ) (w : ℤ) (tm : ℚ) (inc : Bool) (limit : ℤ)
    (user : ℤ → Bool) (hcu : env.current_user = some user)
    (hacc : user company_id = true) (htm : 0 < tm) (hlim : limit ≤ 1000)
    (horg : lookupOrg env.organizations company_id = some true)
    (hget : env.cache_get_fails = false)
    (hmiss : storeLookup store (cacheKey company_id (some w) tm inc) = none)
    (hset : env.cache_set_fails = false)
    (hw : w ≠ 0) (hnone : ∀ i ∈ env.items, i.warehouse_id ≠ w) :
    respStatus (get_low_stock_alerts env store company_id (some w) tm inc limit) = 200 ∧
      respAlerts (get_low_stock_alerts env store company_id (some w) tm inc limit) = [] ∧
      respIsError (get_low_stock_alerts env store company_id (some w) tm inc limit) = false := by
  have hrows := lowStockItems_nil_of_no_warehouse env.items company_id tm w hw hnone
  have hresp : get_low_stock_alerts env store company_id (some w) tm inc limit =
      (200, .envelope (buildResponse env company_id (some w) tm inc limit),
        (cacheKey company_id (some w) tm inc,
          buildResponse env company_id (some w) tm inc limit) :: store) := by
    rw [get_low_stock_alerts.eq_def, hcu]
    simp only [hacc, horg, hget, hmiss, hset, Bool.true_eq_false,
      Bool.false_eq_true, if_false, not_le.mpr htm, not_lt.mpr hlim, ite_false]
  have halerts : (buildResponse env company_id (some w) tm inc limit).alerts = [] := by
    rw [buildResponse.eq_def, hrows]
    simp only [buildAlerts, List.filterMap_nil, sortAlerts, List.insertionSort,
      pySlice_nil]
  rw [hresp]
  exact ⟨rfl, halerts, rfl⟩

/-- C8 witness. -/
theorem c8_witness :
    respStatus (get_low_stock_alerts testEnv [] 1 (some 9) 1 false 100) = 200 ∧
      respAlerts (get_low_stock_alerts testEnv [] 1 (some 9) 1 false 100) = [] ∧
      respIsError (get_low_stock_alerts testEnv [] 1 (some 9) 1 false 100) = false :=
  c8_amended_no_warehouse_check testEnv [] 1 9 1 false 100 (fun _ => true)
    rfl rfl (by norm_num) (by norm_num) rfl rfl rfl rfl (by norm_num)
    (by
      intro i hi
      simp only [testEnv, List.mem_singleton] at hi
      subst hi
      decide)

/-- The total_alerts field of a handler result (0 for error bodies). -/
def respTotal (r : ℕ × Resp × List (String × Envelope)) : ℕ :=
  match r.2.1 with
  | .envelope e => e.total_alerts
  | .error _ => 0

/-- First of two qualifying rows: stockout predicted in 5 days. -/
def itemTwoA : Item :=
  { product_id := 1, product_name := "Widget", sku := "WID-1",
    low_stock_threshold := 10, category := "general", warehouse_id := 3,
    warehouse_name := "Main", current_stock := 5, last_counted_at := none,
    organization_id := 1, is_deleted := false, warehouse_is_active := true }

/-- Second qualifying row: stockout predicted in 6 days. -/
def itemTwoB : Item :=
  { product_id := 2, product_name := "Bolt", sku := "BLT-1",
    low_stock_threshold := 10, category := "general", warehouse_id := 3,
    warehouse_name := "Main", current_stock := 6, last_counted_at := none,
    organization_id := 1, is_deleted := false, warehouse_is_active := true }

/-- Environment with two qualifying low-stock rows, both selling one unit per
day. -/
def envTwo : Env :=
  { current_user := some (fun _ => true), organizations := [(1, true)],
    items := [itemTwoA, itemTwoB], sales_data := [((1, 3), 1), ((2, 3), 1)],
    suppliers := fun _ => none, now := "2025-01-01T00:00:00",
    cache_get_fails := false, cache_set_fails := false }

/-- C9: the cache key is built from (organization_id, warehouse_id,
threshold_multiplier, include_no_sales) only — `limit` is not part of it — so
a request with limit 1 populates the cache, and a second request within the
TTL that differs only by its limit (100) is answered with the first request's
envelope verbatim: status 200, the same body, and total_alerts = 1, although
a fresh computation with limit 100 yields 2 alerts. -/
theorem c9_cache_key_omits_limit :
    respStatus (get_low_stock_alerts envTwo [] 1 none 1 false 1) = 200 ∧
      respTotal (get_low_stock_alerts envTwo [] 1 none 1 false 1) = 1 ∧
      respTotal (get_low_stock_alerts envTwo [] 1 none 1 false 100) = 2 ∧
      respStatus (get_low_stock_alerts envTwo
        (respStore (get_low_stock_alerts envTwo [] 1 none 1 false 1))
        1 none 1 false 100) = 200 ∧
      respEnv (get_low_stock_alerts envTwo
          (respStore (get_low_stock_alerts envTwo [] 1 none 1 false 1))
          1 none 1 false 100) =
        respEnv (get_low_stock_alerts envTwo [] 1 none 1 false 1) ∧
      respTotal (get_low_stock_alerts envTwo
        (respStore (get_low_stock_alerts envTwo [] 1 none 1 false 1))
        1 none 1 false 100) = 1 := by
  norm_num [get_low_stock_alerts, buildResponse, buildAlerts, lowStockItems,
    lookupOrg, storeLookup, salesGet, respStatus, respEnv, respTotal,
    respStore, sortAlerts, pySlice, calculate_days_until_stockout,
    calculate_urgency, calculate_reorder_quantity, pyInt, ratFloor, round2,
    roundHalfEven, fdiv_ten, List.filter, List.filterMap, List.insertionSort,
    List.orderedInsert, internalErrMsg, envTwo, itemTwoA, itemTwoB, alertLe,
    alertKey]

end LowStock

namespace ProductApi

/-- The authenticated caller of `create_product`, as its id and its
warehouse-access predicate. -/
structure PUser where
  id : ℤ
  has_access_to_warehouse : ℤ → Bool

/-- A stored product row (the columns `create_product` touches). -/
structure PProduct where
  id : ℤ
  name : String
  sku : String
  price : ℚ
deriving DecidableEq, Repr

/-- A stored inventory row (the columns `create_product` touches). -/
structure PInventory where
  product_id : ℤ
  warehouse_id : ℤ
  quantity : ℤ
deriving DecidableEq, Repr

/-- The database and auth state visible to `create_product`.
`next_product_id` is the id the flush assigns to the new row. -/
structure PEnv where
  current_user : Option PUser
  warehouses : List ℤ
  products : List PProduct
  inventories : List PInventory
  next_product_id : ℤ

/-- The JSON request body; absent keys are `none`. -/
structure CreateReq where
  name : Option String
  sku : Option String
  price : Option ℚ
  warehouse_id : Option ℤ
  initial_quantity : Option ℤ

/-- Python `str.strip()`: drop whitespace from both ends. -/
def pyStrip (s : String) : String :=
  ⟨((s.data.dropWhile Char.isWhitespace).reverse.dropWhile Char.isWhitespace).reverse⟩

/-- Python `str.upper()` (over the ASCII characters the SKUs use). -/
def pyUpper (s : String) : String :=
  ⟨s.data.map Char.toUpper⟩

/-- The response body of `create_product`. -/
inductive CreateResp
  | created (product : PProduct) (warehouse_id : ℤ) (initial_quantity : ℤ)
  | failure (msg : String)
  | conflict (msg : String) (existing_product_id : ℤ)
deriving DecidableEq, Repr

/-- Embedding of the endpoint `create_product` in `productapi.py`.  Returns
the HTTP status, the response body, and the product and inventory tables
after the request.  Note the duplicate-SKU pre-check queries with the raw
request `sku`, while the stored row normalizes it with `.strip().upper()`. -/
def create_product (env : PEnv) (data : CreateReq) :
    ℕ × CreateResp × List PProduct × List PInventory :=
  match env.current_user with
  | none => (401, .failure "Unauthorized", env.products, env.inventories)
  | some current_user =>
    match data.name, data.sku, data.price, data.warehouse_id, data.initial_quantity with
    | some name, some sku, some price, some warehouse_id, some initial_quantity =>
      if price < 0 then
        (400, .failure "Price cannot be negative", env.products, env.inventories)
      else if initial_quantity < 0 then
        (400, .failure "Initial quantity cannot be negative", env.products, env.inventories)
      else if warehouse_id ∉ env.warehouses then
        (404, .failure "Warehouse not found", env.products, env.inventories)
      else if current_user.has_access_to_warehouse warehouse_id = false then
        (403, .failure "Access denied to this warehouse", env.products, env.inventories)
      else
        match env.products.find? (fun p => p.sku == sku) with
        | some existing_product =>
          (409, .conflict "SKU already exists" existing_product.id,
            env.products, env.inventories)
        | none =>
          let product : PProduct :=
            { id := env.next_product_id, name := pyStrip name,
              sku := pyUpper (pyStrip sku), price := price }
          let inventories :=
            match env.inventories.find? (fun r =>
                r.product_id == product.id && r.warehouse_id == warehouse_id) with
            | some _ =>
              env.inventories.map (fun r =>
                if r.product_id == product.id && r.warehouse_id == warehouse_id then
                  { r with quantity := r.quantity + initial_quantity }
                else r)
            | none =>
              env.inventories ++
                [{ product_id := product.id, warehouse_id := warehouse_id,
                   quantity := initial_quantity }]
          (201, .created product warehouse_id initial_quantity,
            env.products ++ [product], inventories)
    | _, _, _, _, _ =>
      (400, .failure "Missing required fields", env.products, env.inventories)

/-- State with one product stored under the normalized SKU "ABC". -/
def envProd : PEnv :=
  { current_user := some { id := 9, has_access_to_warehouse := fun _ => true },
    warehouses := [7],
    products := [{ id := 1, name := "Widget", sku := "ABC", price := 5 }],
    inventories := [], next_product_id := 2 }

/-- A creation request whose raw SKU "abc" differs from the stored "ABC" only
in letter case. -/
def reqLower : CreateReq :=
  { name := some "Widget 2", sku := some "abc", price := some 5,
    warehouse_id := some 7, initial_quantity := some 3 }

/-- C10: with "ABC" already stored, a request with sku "abc" passes the
duplicate pre-check (which compares against the raw request SKU) and creates
a second product whose stored, normalized SKU equals the existing one. -/
theorem c10_sku_check_bypassed :
    create_product envProd reqLower =
      (201,
        .created { id := 2, name := "Widget 2", sku := "ABC", price := 5 } 7 3,
        [{ id := 1, name := "Widget", sku := "ABC", price := 5 },
          { id := 2, name := "Widget 2", sku := "ABC", price := 5 }],
        [{ product_id := 2, warehouse_id := 7, quantity := 3 }]) ∧
      (envProd.products.map (fun p => p.sku)) = ["ABC"] := by
  constructor
  · rfl
  · rfl

end ProductApi
